import Mathlib

/-!
Shallow embedding of `reddit_persona.py` (class `RedditPersonaGenerator`) and
verification of the specified properties of its analysis pipeline.

Conventions of the embedding:
* Python strings are Lean `String`s; text processing works on `List Char`.
* Python `dict` / `collections.defaultdict` values are association lists
  (`List (String × _)`) in insertion order, exactly the iteration order of a
  Python dict.  `appendAt` embeds `d[key].append(v)` on a `defaultdict(list)`
  and `incrAt` embeds `d[key] += 1` on a `defaultdict(int)`.
* A timestamp serialized with `strftime("%Y-%m-%d")` carries no time of day;
  it is embedded as the record `DateStr`.  Re-parsing it with
  `strptime(_, "%Y-%m-%d")` yields a datetime whose hour is `0`.
* Machine floats of the renderer are embedded as rationals (`ℚ`); the claims
  under study only concern exact values such as `100.0`.
* A Python `ZeroDivisionError` raised while writing the report is embedded by
  returning the sections already written together with `some err`; a clean run
  returns all sections and `none`.
* The ambient clock `datetime.now()` used by `_calculate_account_age` is
  passed explicitly as a day delta `nowDelta`.
-/

namespace RedditPersona

/-- The apostrophe character (used by the self-reference pattern of the code). -/
def apos : Char := Char.ofNat 39

/-- Python `str.lower` on the ASCII texts handled by the script, applied to the
character list of a string (`comment['body'].lower()` and friends). -/
def lowerText (s : String) : List Char := s.toList.map Char.toLower

/-- Whitespace test backing Python `str.split()` (ASCII whitespace). -/
def isSpaceChar (c : Char) : Bool := c == ' ' || c == '\t' || c == '\n' || c == '\r'

/-- Helper for `wordCount`: the flag records whether we are inside a word. -/
def wordCountAux : Bool → List Char → Nat
  | _, [] => 0
  | inWord, c :: cs =>
    if isSpaceChar c then wordCountAux false cs
    else (if inWord then 0 else 1) + wordCountAux true cs

/-- `len(text.split())`: the number of maximal nonempty runs of
non-whitespace characters. -/
def wordCount (l : List Char) : Nat := wordCountAux false l

/-- Python substring containment `pat in text`. -/
def containsSub : List Char → List Char → Bool
  | [], pat => pat.isEmpty
  | c :: rest, pat => pat.isPrefixOf (c :: rest) || containsSub rest pat

/-- `any(w in text for w in words)`. -/
def containsAny (text : List Char) (words : List String) : Bool :=
  words.any (fun w => containsSub text w.toList)

/-- Word character in the sense of the regex `\b` boundary (`[a-zA-Z0-9_]`;
the texts at hand are ASCII). -/
def isWordChar (c : Char) : Bool := c.isAlphanum || c == '_'

/-- The pattern `pat` occurs in `text` at index `i` with a `\b` word boundary
on each side. -/
def matchWordAt (text pat : List Char) (i : Nat) : Bool :=
  pat.isPrefixOf (text.drop i)
  && (i == 0 || !isWordChar (text.getD (i - 1) ' '))
  && (text.length ≤ i + pat.length || !isWordChar (text.getD (i + pat.length) ' '))

/-- Some position of `text` matches `pat` with word boundaries. -/
def hasWordMatch (text pat : List Char) : Bool :=
  (List.range (text.length + 1)).any (matchWordAt text pat)

/-- The regex search `re.search(r"\b(i'm|i am|me|my)\b", text)` of the code:
a whole-word occurrence of one of the four alternatives. -/
def selfReference (text : List Char) : Bool :=
  hasWordMatch text ['i', apos, 'm'] || hasWordMatch text "i am".toList
    || hasWordMatch text "me".toList || hasWordMatch text "my".toList

/-- A date-only timestamp, the value of `strftime("%Y-%m-%d")`: it records
year, month and day and carries no time of day. -/
structure DateStr where
  year : Nat
  month : Nat
  day : Nat
deriving DecidableEq

/-- The result of `datetime.strptime(ts, "%Y-%m-%d")`: missing fields of the
format default to zero, in particular the hour. -/
structure PyDateTime where
  year : Nat
  month : Nat
  day : Nat
  hour : Nat
deriving DecidableEq

/-- `datetime.strptime(timestamp, '%Y-%m-%d')` on a date-only string. -/
def strptimeDate (d : DateStr) : PyDateTime :=
  { year := d.year, month := d.month, day := d.day, hour := 0 }

/-- One fetched comment record as built by `extract_user_info`. -/
structure CommentRec where
  body : String
  subreddit : String
  created_utc : DateStr
  score : Int
  permalink : String
deriving DecidableEq

/-- One fetched post record as built by `extract_user_info`. -/
structure PostRec where
  title : String
  selftext : String
  subreddit : String
  created_utc : DateStr
  score : Int
  permalink : String
  is_self : Bool
  url : String
deriving DecidableEq

/-- The `user_info` dictionary returned by a successful `extract_user_info`. -/
structure UserInfo where
  username : String
  created_utc : DateStr
  comment_karma : Int
  link_karma : Int
  is_mod : Bool
  is_gold : Bool
  comments : List CommentRec
  posts : List PostRec
deriving DecidableEq

/-- The language-style counters (`persona['language_style']`). -/
structure LanguageStyle where
  comment_length : Nat
  exclamation_use : Nat
  self_reference : Nat
deriving DecidableEq

/-- `persona['basic_info']`. -/
structure BasicInfo where
  username : String
  account_age : String
  comment_karma : Int
  post_karma : Int
  premium_member : Bool
deriving DecidableEq

/-- The `persona` dictionary built by `analyze_persona`.  The category maps
are association lists in Python-dict insertion order. -/
structure Persona where
  basic_info : BasicInfo
  interests : List (String × List String)
  personality_traits : List (String × List String)
  frequent_subreddits : List (String × Nat)
  activity_patterns : List (String × Nat)
  language_style : LanguageStyle
  top_interests : List (String × List String)
  top_subreddits : List (String × Nat)
deriving DecidableEq

/-- `d[k].append(v)` on a `defaultdict(list)`: update the entry of `k` in
place, or create it at the end (dicts preserve insertion order). -/
def appendAt (k : String) (v : α) : List (String × List α) → List (String × List α)
  | [] => [(k, [v])]
  | (k2, vs) :: rest =>
    if k2 == k then (k2, vs ++ [v]) :: rest else (k2, vs) :: appendAt k v rest

/-- `d[k] += 1` on a `defaultdict(int)`. -/
def incrAt (k : String) : List (String × Nat) → List (String × Nat)
  | [] => [(k, 1)]
  | (k2, n) :: rest =>
    if k2 == k then (k2, n + 1) :: rest else (k2, n) :: incrAt k rest

/-- Lookup in a category map, defaulting to the empty citation list. -/
def getList (k : String) : List (String × List α) → List α
  | [] => []
  | (k2, vs) :: rest => if k2 == k then vs else getList k rest

/-- Lookup in a counter map, defaulting to `0`. -/
def getCount (k : String) : List (String × Nat) → Nat
  | [] => 0
  | (k2, n) :: rest => if k2 == k then n else getCount k rest

/-- Conditional `appendAt`, the effect of one `if any(...): d[cat].append(pl)`
rule of the classifier. -/
def appendIf (b : Bool) (k : String) (v : String)
    (m : List (String × List String)) : List (String × List String) :=
  if b then appendAt k v m else m

/-- `_calculate_account_age`, with `datetime.now() - created` passed as the
day delta: `f"{delta.days // 365} years, {(delta.days % 365) // 30} months"`. -/
def calculate_account_age (deltaDays : Nat) : String :=
  toString (deltaDays / 365) ++ " years, " ++ toString (deltaDays % 365 / 30) ++ " months"

/-- `_analyze_comment`: the net effect of the rule chain on the persona.  The
rules, their keyword lists and their order are verbatim from the source; each
`if` appends the comment permalink to one fixed category. -/
def analyze_comment (c : CommentRec) (p : Persona) : Persona :=
  let text := lowerText c.body
  { p with
    interests :=
      appendIf (containsAny text ["movie", "film", "netflix", "hbo"]) "movies" c.permalink
        (appendIf (containsAny text ["game", "gaming", "playstation", "xbox"]) "gaming" c.permalink
          (appendIf (containsAny text ["python", "javascript", "java", "c++"]) "programming"
            c.permalink p.interests)),
    personality_traits :=
      appendIf (containsAny text ["thanks", "thank you", "appreciate"]) "polite" c.permalink
        (appendIf (containsSub text "?".toList) "inquisitive" c.permalink
          (appendIf (containsAny text ["i think", "in my opinion"]) "opinionated"
            c.permalink p.personality_traits)),
    language_style :=
      { comment_length := p.language_style.comment_length + wordCount text,
        exclamation_use := p.language_style.exclamation_use
          + (if containsSub text "!".toList then 1 else 0),
        self_reference := p.language_style.self_reference
          + (if selfReference text then 1 else 0) } }

/-- `_analyze_post`: interests from `title + ' ' + selftext` (lowercased),
the inquisitive trait from `'?' in post['title']`.  No language-style counter
is touched by this function. -/
def analyze_post (post : PostRec) (p : Persona) : Persona :=
  let text := lowerText (post.title ++ " " ++ post.selftext)
  { p with
    interests :=
      appendIf (containsAny text ["discussion", "debate", "opinion"]) "discussions" post.permalink
        (appendIf (containsAny text ["help", "advice", "suggestion"]) "help_seeking"
          post.permalink p.interests),
    personality_traits :=
      appendIf (containsSub post.title.toList "?".toList) "inquisitive"
        post.permalink p.personality_traits }

/-- The `if 5 <= hour < 12: ... else: night` chain of
`_analyze_activity_time`, as a function of the parsed hour. -/
def bucketOfHour (hour : Nat) : String :=
  if 5 ≤ hour ∧ hour < 12 then "morning"
  else if 12 ≤ hour ∧ hour < 17 then "afternoon"
  else if 17 ≤ hour ∧ hour < 22 then "evening"
  else "night"

/-- `_analyze_activity_time`: parse the (date-only) timestamp, bucket its
hour, and bump the bucket counter. -/
def analyze_activity_time (ts : DateStr) (p : Persona) : Persona :=
  { p with activity_patterns :=
      incrAt (bucketOfHour (strptimeDate ts).hour) p.activity_patterns }

/-- One iteration of the comment loop of `analyze_persona`. -/
def processComment (p : Persona) (c : CommentRec) : Persona :=
  analyze_activity_time c.created_utc
    { analyze_comment c p with
      frequent_subreddits := incrAt c.subreddit (analyze_comment c p).frequent_subreddits }

/-- One iteration of the post loop of `analyze_persona`. -/
def processPost (p : Persona) (post : PostRec) : Persona :=
  analyze_activity_time post.created_utc
    { analyze_post post p with
      frequent_subreddits := incrAt post.subreddit (analyze_post post p).frequent_subreddits }

/-- The initial persona: empty category maps and zero counters. -/
def emptyPersona (b : BasicInfo) : Persona :=
  { basic_info := b, interests := [], personality_traits := [],
    frequent_subreddits := [], activity_patterns := [],
    language_style := ⟨0, 0, 0⟩, top_interests := [], top_subreddits := [] }

/-- The comparison underlying `sorted(key=lambda x: len(x[1]), reverse=True)`:
`a` may precede `b` when `len(b[1]) ≤ len(a[1])`. -/
def leLen (a b : String × List String) : Bool := b.2.length ≤ a.2.length

/-- The comparison underlying `sorted(key=lambda x: x[1], reverse=True)` on
counter entries. -/
def leCount (a b : String × Nat) : Bool := b.2 ≤ a.2

/-- `sorted(xs, key=lambda x: len(x[1]), reverse=True)`.  Python `sorted` is a
stable sort; a stable sort's output is uniquely determined by the key preorder
and the input order, so the stable `List.mergeSort` under `leLen` computes
exactly the same list. -/
def sortedByLenDesc (l : List (String × List String)) : List (String × List String) :=
  List.mergeSort l leLen

/-- `sorted(xs, key=lambda x: x[1], reverse=True)` on counter entries. -/
def sortedByCountDesc (l : List (String × Nat)) : List (String × Nat) :=
  List.mergeSort l leCount

/-- `analyze_persona`: build the basic info, fold the comment loop then the
post loop, then attach the two top-5 rankings. -/
def analyze_persona (nowDelta : Nat) (ui : UserInfo) : Persona :=
  let b : BasicInfo :=
    { username := ui.username, account_age := calculate_account_age nowDelta,
      comment_karma := ui.comment_karma, post_karma := ui.link_karma,
      premium_member := ui.is_gold }
  let p1 := ui.comments.foldl processComment (emptyPersona b)
  let p2 := ui.posts.foldl processPost p1
  { p2 with
    top_interests := (sortedByLenDesc p2.interests).take 5,
    top_subreddits := (sortedByCountDesc p2.frequent_subreddits).take 5 }

/-- `str.capitalize()`: first character upper-cased, the rest lower-cased. -/
def capitalizeWord (s : String) : String :=
  match s.toList with
  | [] => ""
  | c :: rest => String.mk (c.toUpper :: rest.map Char.toLower)

/-- One conditional line of the language-style section. -/
inductive LangLine where
  | avgLength (avg : ℚ)
  | exclamationNote
  | selfReferenceNote
deriving DecidableEq

/-- One section of the report, in the order the file is written. -/
inductive Section where
  | basic (b : BasicInfo)
  | interests (lines : List (String × Nat × List String))
  | traits (lines : List (String × Nat × List String))
  | activity (lines : List (String × ℚ))
  | language (lines : List LangLine)
  | subreddits (lines : List (String × Nat))
deriving DecidableEq

/-- The activity-pattern loop of `generate_persona_file`: one percentage line
per bucket, `count / total_activity * 100`.  The division raises
`ZeroDivisionError` when the dict is nonempty and the total is zero. -/
def renderActivity (total : Nat) : List (String × Nat) → Except String (List (String × ℚ))
  | [] => Except.ok []
  | (t, c) :: rest =>
    if total == 0 then Except.error "ZeroDivisionError"
    else do
      let others ← renderActivity total rest
      Except.ok ((t, (c : ℚ) / (total : ℚ) * 100) :: others)

/-- The language-style section of `generate_persona_file`.  The average line
is guarded by `comment_length > 0` only; its denominator is
`len(personality_traits) + len(interests)` and dividing by zero raises. -/
def renderLanguage (p : Persona) : Except String (List LangLine) := do
  let avgLines ←
    if p.language_style.comment_length > 0 then
      if p.personality_traits.length + p.interests.length == 0 then
        Except.error "ZeroDivisionError"
      else
        Except.ok [LangLine.avgLength ((p.language_style.comment_length : ℚ)
          / ((p.personality_traits.length + p.interests.length : Nat) : ℚ))]
    else Except.ok []
  let exclLines := if p.language_style.exclamation_use > 0
    then [LangLine.exclamationNote] else []
  let selfLines := if p.language_style.self_reference > 0
    then [LangLine.selfReferenceNote] else []
  Except.ok (avgLines ++ exclLines ++ selfLines)

/-- `generate_persona_file`: the sections written to the file, in order,
together with the error aborting the run, if any.  The file handle is written
progressively, so sections before a raising division are still produced. -/
def generate_persona_file (p : Persona) : List Section × Option String :=
  let s1 := Section.basic p.basic_info
  let s2 := Section.interests
    (p.top_interests.map (fun it => (capitalizeWord it.1, it.2.length, it.2.take 3)))
  let s3 := Section.traits
    (p.personality_traits.map (fun tr => (capitalizeWord tr.1, tr.2.length, tr.2.take 2)))
  let total := (p.activity_patterns.map (fun ab => ab.2)).sum
  match renderActivity total p.activity_patterns with
  | Except.error e => ([s1, s2, s3], some e)
  | Except.ok actLines =>
    match renderLanguage p with
    | Except.error e => ([s1, s2, s3, Section.activity actLines], some e)
    | Except.ok langLines =>
      ([s1, s2, s3, Section.activity actLines, Section.language langLines,
        Section.subreddits p.top_subreddits], none)

/-- The separator of `profile_url.split('/user/')`. -/
def userSep : List Char := "/user/".toList

/-- Python `str.split('/user/')`: leftmost, non-overlapping occurrences of the
separator cut the string; `n` separators produce `n + 1` parts. -/
def splitUser (l : List Char) : List (List Char) :=
  match l with
  | [] => [[]]
  | c :: rest =>
    if userSep.isPrefixOf (c :: rest) then
      [] :: splitUser (rest.drop 5)
    else
      match splitUser rest with
      | [] => [[c]]
      | h :: t => (c :: h) :: t
termination_by l.length
decreasing_by
  · simp [List.length_drop]; omega
  · simp

/-- Python `str.strip('/')`: drop the leading and trailing slashes. -/
def stripSlashes (l : List Char) : List Char :=
  ((l.dropWhile (· == '/')).reverse.dropWhile (· == '/')).reverse

/-- `profile_url.split('/user/')[-1].strip('/')`: the username extracted from
the operator-supplied URL (`split` never returns an empty list, so `[-1]` is
its last element). -/
def parse_username (url : String) : String :=
  String.mk (stripSlashes ((splitUser url.toList).getLastD []))

/-- The observable outcome of one run of `main`.  `wroteFile` records the
report file name, the sections written into it and the error that interrupted
rendering, if any; the other constructors are the two early-exit messages,
under which no file is opened. -/
inductive MainOutcome where
  | invalidUrl
  | fetchFailed
  | wroteFile (filename : String) (sections : List Section) (err : Option String)
deriving DecidableEq

/-- Whether an outcome of `main` opened and wrote the report file. -/
def writesFile : MainOutcome → Bool
  | MainOutcome.wroteFile _ _ _ => true
  | _ => false

/-- `main`: parse the username, reject it if empty, otherwise fetch
(`extract_user_info` returns `none` on any fetch exception), and only on a
successful fetch analyze and generate the report file. -/
def mainRun (profile_url : String) (fetch : String → Option UserInfo)
    (nowDelta : Nat) : MainOutcome :=
  let username := parse_username profile_url
  if username == "" then MainOutcome.invalidUrl
  else
    match fetch username with
    | none => MainOutcome.fetchFailed
    | some ui =>
      let persona := analyze_persona nowDelta ui
      let r := generate_persona_file persona
      MainOutcome.wroteFile ("reddit_persona_" ++ username ++ ".txt") r.1 r.2

/-! ### Sample inputs used by concrete theorems -/

/-- A fixed basic-info record for concrete runs. -/
def sample_basic : BasicInfo :=
  { username := "x", account_age := "0 years, 0 months", comment_karma := 0,
    post_karma := 0, premium_member := false }

/-- The scenario comment of the spec (claim C6). -/
def c6_comment : CommentRec :=
  { body := "I think Python is great! Thanks for the help", subreddit := "learnpython",
    created_utc := ⟨2024, 1, 1⟩, score := 1, permalink := "https://reddit.com/r/learnpython/c1" }

/-- A comment with a positive word count that triggers no category. -/
def c1_comment : CommentRec :=
  { body := "hello world", subreddit := "test", created_utc := ⟨2024, 1, 1⟩,
    score := 0, permalink := "https://reddit.com/r/test/c1" }

/-- A user whose only activity is `c1_comment` (claim C1's failing input). -/
def c1_user : UserInfo :=
  { username := "bob", created_utc := ⟨2020, 1, 1⟩, comment_karma := 0, link_karma := 0,
    is_mod := false, is_gold := false, comments := [c1_comment], posts := [] }

/-- A user with no comments and no posts (claim C5's scenario). -/
def c5_user : UserInfo :=
  { username := "bob", created_utc := ⟨2020, 1, 1⟩, comment_karma := 0, link_karma := 0,
    is_mod := false, is_gold := false, comments := [], posts := [] }

/-! ### C2: the activity-time bucketer -/

/-- C2: the bucketer maps every hour to exactly one of the four buckets by
closed-open intervals: `[5,12)` is morning, `[12,17)` afternoon, `[17,22)`
evening, everything else (hours below 5 or at least 22) night; in particular
hour 5 is morning, 4 night, 12 afternoon, 17 evening, 22 night, 0 night. -/
theorem C2_bucket_of_hour_intervals :
    (∀ h : Nat, 5 ≤ h → h < 12 → bucketOfHour h = "morning") ∧
    (∀ h : Nat, 12 ≤ h → h < 17 → bucketOfHour h = "afternoon") ∧
    (∀ h : Nat, 17 ≤ h → h < 22 → bucketOfHour h = "evening") ∧
    (∀ h : Nat, h < 5 ∨ 22 ≤ h → bucketOfHour h = "night") ∧
    (∀ h : Nat, bucketOfHour h = "morning" ∨ bucketOfHour h = "afternoon" ∨
      bucketOfHour h = "evening" ∨ bucketOfHour h = "night") ∧
    bucketOfHour 5 = "morning" ∧ bucketOfHour 4 = "night" ∧
    bucketOfHour 12 = "afternoon" ∧ bucketOfHour 17 = "evening" ∧
    bucketOfHour 22 = "night" ∧ bucketOfHour 0 = "night" := by
  refine ⟨?_, ?_, ?_, ?_, ?_, rfl, rfl, rfl, rfl, rfl, rfl⟩
  · intro h h1 h2; unfold bucketOfHour; rw [if_pos ⟨h1, h2⟩]
  · intro h h1 h2; unfold bucketOfHour; rw [if_neg (by omega), if_pos ⟨h1, h2⟩]
  · intro h h1 h2; unfold bucketOfHour
    rw [if_neg (by omega), if_neg (by omega), if_pos ⟨h1, h2⟩]
  · intro h h1; unfold bucketOfHour
    rw [if_neg (by omega), if_neg (by omega), if_neg (by omega)]
  · intro h; unfold bucketOfHour
    split
    · exact Or.inl rfl
    · split
      · exact Or.inr (Or.inl rfl)
      · split
        · exact Or.inr (Or.inr (Or.inl rfl))
        · exact Or.inr (Or.inr (Or.inr rfl))

/-- Witness for C2: the interval clauses applied at hours 7, 13, 20, 23
and the else clause at hour 2. -/
theorem C2_bucket_of_hour_intervals_witness :
    bucketOfHour 7 = "morning" ∧ bucketOfHour 13 = "afternoon" ∧
    bucketOfHour 20 = "evening" ∧ bucketOfHour 23 = "night" ∧
    bucketOfHour 2 = "night" ∧
    (bucketOfHour 9 = "morning" ∨ bucketOfHour 9 = "afternoon" ∨
      bucketOfHour 9 = "evening" ∨ bucketOfHour 9 = "night") :=
  ⟨C2_bucket_of_hour_intervals.1 7 (by decide) (by decide),
   C2_bucket_of_hour_intervals.2.1 13 (by decide) (by decide),
   C2_bucket_of_hour_intervals.2.2.1 20 (by decide) (by decide),
   C2_bucket_of_hour_intervals.2.2.2.1 23 (Or.inr (by decide)),
   C2_bucket_of_hour_intervals.2.2.2.1 2 (Or.inl (by decide)),
   C2_bucket_of_hour_intervals.2.2.2.2.1 9⟩

/-! ### C6: the sample comment scenario -/

/-- C6: on the comment body `"I think Python is great! Thanks for the help"`,
starting from any persona, `_analyze_comment` appends the permalink exactly to
the interest `programming` and to the traits `opinionated` and `polite`, adds
9 to the word total, adds 1 to the exclamation counter, and leaves the
self-reference counter unchanged (no whole-word `i'm`, `i am`, `me` or `my`
occurs in the text). -/
theorem C6_sample_comment_classification (p : Persona) :
    (analyze_comment c6_comment p).interests =
      appendAt "programming" c6_comment.permalink p.interests ∧
    (analyze_comment c6_comment p).personality_traits =
      appendAt "polite" c6_comment.permalink
        (appendAt "opinionated" c6_comment.permalink p.personality_traits) ∧
    (analyze_comment c6_comment p).language_style =
      ⟨p.language_style.comment_length + 9,
       p.language_style.exclamation_use + 1,
       p.language_style.self_reference⟩ :=
  ⟨rfl, rfl, rfl⟩

/-! ### C1: the average-comment-length guard -/

/-- C1: the claim fails on the code.  The average-length line is guarded by
`comment_length > 0` only, not by its denominator
`len(personality_traits) + len(interests)`; for a persona with a positive
word total and no triggered category (`c1_user`, whose single comment is
`"hello world"`), rendering raises `ZeroDivisionError` instead of skipping
the line. -/
theorem C1_average_length_division_raises :
    (analyze_persona 0 c1_user).language_style.comment_length = 2 ∧
    (analyze_persona 0 c1_user).interests = [] ∧
    (analyze_persona 0 c1_user).personality_traits = [] ∧
    (generate_persona_file (analyze_persona 0 c1_user)).2 = some "ZeroDivisionError" :=
  ⟨rfl, rfl, rfl, rfl⟩

/-! ### C5: the empty-activity scenario -/

/-- C5: for a persona built from zero comments and zero posts, report
generation raises nothing: the activity loop iterates over an empty dict, so
the zero-total division never runs, and the language-style lines are all
guarded by counters that are zero. -/
theorem C5_empty_activity_renders_cleanly (ui : UserInfo) (nd : Nat)
    (hc : ui.comments = []) (hp : ui.posts = []) :
    (generate_persona_file (analyze_persona nd ui)).2 = none ∧
    (analyze_persona nd ui).activity_patterns = [] ∧
    (analyze_persona nd ui).language_style = ⟨0, 0, 0⟩ := by
  cases ui with
  | mk u cr ck lk im ig cs ps =>
    dsimp only at hc hp
    subst hc; subst hp
    exact ⟨rfl, rfl, rfl⟩

/-- Witness for C5: the empty user `c5_user`. -/
theorem C5_empty_activity_renders_cleanly_witness :
    (generate_persona_file (analyze_persona 0 c5_user)).2 = none ∧
    (analyze_persona 0 c5_user).activity_patterns = [] ∧
    (analyze_persona 0 c5_user).language_style = ⟨0, 0, 0⟩ :=
  C5_empty_activity_renders_cleanly c5_user 0 rfl rfl

/-! ### C3: the language-style totals -/

/-- Word count of one comment (`len(comment['body'].lower().split())`). -/
def comment_word_count (c : CommentRec) : Nat := wordCount (lowerText c.body)

/-- Whether one comment's lowercased body contains `"!"`. -/
def comment_has_exclamation (c : CommentRec) : Bool :=
  containsSub (lowerText c.body) "!".toList

/-- Whether one comment's lowercased body has a whole-word self-reference. -/
def comment_self_reference (c : CommentRec) : Bool :=
  selfReference (lowerText c.body)

/-- The combined text of a post, `(title + ' ' + selftext).lower()`. -/
def post_text (post : PostRec) : List Char :=
  lowerText (post.title ++ " " ++ post.selftext)

/-- One post-loop iteration never changes the language-style counters:
`_analyze_post` does not touch them. -/
theorem processPost_language (p : Persona) (post : PostRec) :
    (processPost p post).language_style = p.language_style := rfl

/-- One comment-loop iteration adds the comment's word count, exclamation
flag and self-reference flag to the language-style counters. -/
theorem processComment_language (p : Persona) (c : CommentRec) :
    (processComment p c).language_style =
      ⟨p.language_style.comment_length + comment_word_count c,
       p.language_style.exclamation_use + (if comment_has_exclamation c then 1 else 0),
       p.language_style.self_reference + (if comment_self_reference c then 1 else 0)⟩ := rfl

/-- The post loop leaves the language-style counters unchanged. -/
theorem foldl_processPost_language (ps : List PostRec) (p : Persona) :
    (ps.foldl processPost p).language_style = p.language_style := by
  induction ps generalizing p with
  | nil => rfl
  | cons post rest ih => rw [List.foldl_cons, ih, processPost_language]

/-- The comment loop accumulates the three language-style totals over the
comment list. -/
theorem foldl_processComment_language (cs : List CommentRec) (p : Persona) :
    (cs.foldl processComment p).language_style =
      ⟨p.language_style.comment_length + (cs.map comment_word_count).sum,
       p.language_style.exclamation_use + cs.countP comment_has_exclamation,
       p.language_style.self_reference + cs.countP comment_self_reference⟩ := by
  induction cs generalizing p with
  | nil => simp
  | cons c rest ih =>
    rw [List.foldl_cons, ih, processComment_language]
    simp only [List.map_cons, List.sum_cons, List.countP_cons, LanguageStyle.mk.injEq]
    refine ⟨by omega, ?_, ?_⟩
    · cases h : comment_has_exclamation c
      · simp [h]
      · simp [h]; omega
    · cases h : comment_self_reference c
      · simp [h]
      · simp [h]; omega

/-- C3 (amended): the language-style totals accumulate over the comments
only — the word total is the sum of per-comment word counts, the exclamation
counter counts the comments containing `"!"`, and the self-reference counter
counts the comments with a whole-word `i'm`, `i am`, `me` or `my`; posts
contribute nothing, since `_analyze_post` never updates `language_style`. -/
theorem C3_language_totals_comments_only (nd : Nat) (ui : UserInfo) :
    (analyze_persona nd ui).language_style =
      ⟨(ui.comments.map comment_word_count).sum,
       ui.comments.countP comment_has_exclamation,
       ui.comments.countP comment_self_reference⟩ := by
  show ((ui.posts.foldl processPost (ui.comments.foldl processComment _)).language_style = _)
  rw [foldl_processPost_language, foldl_processComment_language]
  simp [emptyPersona]

/-- A post whose combined text has one word, an exclamation mark and a
whole-word `me` (claim C3's counterexample input). -/
def c3_post : PostRec :=
  { title := "me!", selftext := "", subreddit := "test", created_utc := ⟨2024, 1, 1⟩,
    score := 0, permalink := "https://reddit.com/r/test/p1", is_self := true, url := "" }

/-- A user whose only activity is the post `c3_post`. -/
def c3_user : UserInfo :=
  { username := "bob", created_utc := ⟨2020, 1, 1⟩, comment_karma := 0, link_karma := 0,
    is_mod := false, is_gold := false, comments := [], posts := [c3_post] }

/-- The language-style totals as claim C3 words them: accumulated over the
full ordered sequence of comments then posts, a post's text being
`title + ' ' + selftext`.  Stated from the claim for comparison with the
code's behaviour. -/
def claimed_language_totals (ui : UserInfo) : LanguageStyle :=
  { comment_length := (ui.comments.map comment_word_count).sum
      + (ui.posts.map (fun post => wordCount (post_text post))).sum,
    exclamation_use := ui.comments.countP comment_has_exclamation
      + ui.posts.countP (fun post => containsSub (post_text post) "!".toList),
    self_reference := ui.comments.countP comment_self_reference
      + ui.posts.countP (fun post => selfReference (post_text post)) }

/-- Counterexample to C3 as stated: for the user whose only activity is the
post `"me!"`, the code's totals are all zero while totals taken over comments
and posts would be `⟨1, 1, 1⟩`. -/
theorem C3_counterexample_posts_ignored :
    (analyze_persona 0 c3_user).language_style = ⟨0, 0, 0⟩ ∧
    claimed_language_totals c3_user = ⟨1, 1, 1⟩ ∧
    ¬ ((analyze_persona 0 c3_user).language_style = claimed_language_totals c3_user) := by
  refine ⟨rfl, by decide, by decide⟩

/-! ### C7: each rule fires at most once per item -/

/-- Appending under key `k` extends exactly that key's citation list. -/
theorem getList_appendAt_self (k : String) (v : α) (m : List (String × List α)) :
    getList k (appendAt k v m) = getList k m ++ [v] := by
  induction m with
  | nil => simp [appendAt, getList]
  | cons e rest ih =>
    obtain ⟨k2, vs⟩ := e
    by_cases h : k2 = k
    · simp [appendAt, getList, h]
    · simp [appendAt, getList, h, ih]

/-- Appending under another key leaves a key's citation list unchanged. -/
theorem getList_appendAt_ne (h : k ≠ k2) (v : α) (m : List (String × List α)) :
    getList k (appendAt k2 v m) = getList k m := by
  induction m with
  | nil => simp [appendAt, getList, Ne.symm h]
  | cons e rest ih =>
    obtain ⟨k3, vs⟩ := e
    by_cases h3 : k3 = k2
    · simp [appendAt, getList, h3, Ne.symm h]
    · by_cases h4 : k3 = k
      · simp [appendAt, getList, h3, h4, h]
      · simp [appendAt, getList, h3, h4, ih]

/-- A conditional append under another key leaves a key's list unchanged. -/
theorem getList_appendIf_ne (h : k ≠ k2) (b : Bool) (v : String)
    (m : List (String × List String)) :
    getList k (appendIf b k2 v m) = getList k m := by
  cases b <;> simp [appendIf, getList_appendAt_ne h]

/-- A single conditional append grows any key's list by at most one. -/
theorem getList_appendIf_le (k k2 : String) (b : Bool) (v : String)
    (m : List (String × List String)) :
    (getList k (appendIf b k2 v m)).length ≤ (getList k m).length + 1 := by
  by_cases h : k = k2
  · subst h
    cases b
    · simp [appendIf]
    · simp [appendIf, getList_appendAt_self]
  · rw [getList_appendIf_ne h]
    omega

/-- A chain of two conditional appends under distinct keys grows any key's
list by at most one. -/
theorem getList_appendIf_chain2_le (h12 : k1 ≠ k2) (k : String)
    (b1 b2 : Bool) (v1 v2 : String) (m : List (String × List String)) :
    (getList k (appendIf b2 k2 v2 (appendIf b1 k1 v1 m))).length
      ≤ (getList k m).length + 1 := by
  by_cases h1 : k = k1
  · subst h1
    rw [getList_appendIf_ne h12]
    exact getList_appendIf_le _ _ _ _ _
  · have h := getList_appendIf_le k k2 b2 v2 (appendIf b1 k1 v1 m)
    rwa [getList_appendIf_ne h1] at h

/-- A chain of three conditional appends under pairwise distinct keys grows
any key's list by at most one. -/
theorem getList_appendIf_chain3_le (h12 : k1 ≠ k2) (h13 : k1 ≠ k3) (h23 : k2 ≠ k3)
    (k : String) (b1 b2 b3 : Bool) (v1 v2 v3 : String)
    (m : List (String × List String)) :
    (getList k (appendIf b3 k3 v3 (appendIf b2 k2 v2 (appendIf b1 k1 v1 m)))).length
      ≤ (getList k m).length + 1 := by
  by_cases h1 : k = k1
  · subst h1
    rw [getList_appendIf_ne h13, getList_appendIf_ne h12]
    exact getList_appendIf_le _ _ _ _ _
  · have h := getList_appendIf_chain2_le h23 k b2 b3 v2 v3 (appendIf b1 k1 v1 m)
    rwa [getList_appendIf_ne h1] at h

/-- Incrementing key `k` bumps exactly that key's counter. -/
theorem getCount_incrAt_self (k : String) (m : List (String × Nat)) :
    getCount k (incrAt k m) = getCount k m + 1 := by
  induction m with
  | nil => simp [incrAt, getCount]
  | cons e rest ih =>
    obtain ⟨k2, n⟩ := e
    by_cases h : k2 = k
    · simp [incrAt, getCount, h]
    · simp [incrAt, getCount, h, ih]

/-- Incrementing another key leaves a key's counter unchanged. -/
theorem getCount_incrAt_ne (h : k ≠ k2) (m : List (String × Nat)) :
    getCount k (incrAt k2 m) = getCount k m := by
  induction m with
  | nil => simp [incrAt, getCount, Ne.symm h]
  | cons e rest ih =>
    obtain ⟨k3, n⟩ := e
    by_cases h3 : k3 = k2
    · simp [incrAt, getCount, h3, Ne.symm h]
    · by_cases h4 : k3 = k
      · simp [incrAt, getCount, h3, h4, h]
      · simp [incrAt, getCount, h3, h4, ih]

/-- C7: per item, each classifier rule fires at most once per category — the
citation list of any category grows by at most one permalink under
`_analyze_comment` and under `_analyze_post` — and a loop iteration bumps the
count of the item's subreddit exactly once, leaving all other subreddit
counts unchanged. -/
theorem C7_rules_fire_at_most_once_per_item :
    (∀ (c : CommentRec) (p : Persona) (k : String),
      (getList k (analyze_comment c p).interests).length
        ≤ (getList k p.interests).length + 1) ∧
    (∀ (c : CommentRec) (p : Persona) (k : String),
      (getList k (analyze_comment c p).personality_traits).length
        ≤ (getList k p.personality_traits).length + 1) ∧
    (∀ (post : PostRec) (p : Persona) (k : String),
      (getList k (analyze_post post p).interests).length
        ≤ (getList k p.interests).length + 1) ∧
    (∀ (post : PostRec) (p : Persona) (k : String),
      (getList k (analyze_post post p).personality_traits).length
        ≤ (getList k p.personality_traits).length + 1) ∧
    (∀ (p : Persona) (c : CommentRec),
      getCount c.subreddit (processComment p c).frequent_subreddits
        = getCount c.subreddit p.frequent_subreddits + 1) ∧
    (∀ (p : Persona) (c : CommentRec) (s : String), s ≠ c.subreddit →
      getCount s (processComment p c).frequent_subreddits
        = getCount s p.frequent_subreddits) ∧
    (∀ (p : Persona) (post : PostRec),
      getCount post.subreddit (processPost p post).frequent_subreddits
        = getCount post.subreddit p.frequent_subreddits + 1) ∧
    (∀ (p : Persona) (post : PostRec) (s : String), s ≠ post.subreddit →
      getCount s (processPost p post).frequent_subreddits
        = getCount s p.frequent_subreddits) := by
  refine ⟨?_, ?_, ?_, ?_, ?_, ?_, ?_, ?_⟩
  · intro c p k
    exact getList_appendIf_chain3_le (by decide) (by decide) (by decide) k _ _ _ _ _ _ _
  · intro c p k
    exact getList_appendIf_chain3_le (by decide) (by decide) (by decide) k _ _ _ _ _ _ _
  · intro post p k
    exact getList_appendIf_chain2_le (by decide) k _ _ _ _ _
  · intro post p k
    exact getList_appendIf_le k _ _ _ _
  · intro p c
    exact getCount_incrAt_self _ _
  · intro p c s hs
    exact getCount_incrAt_ne hs _
  · intro p post
    exact getCount_incrAt_self _ _
  · intro p post s hs
    exact getCount_incrAt_ne hs _

/-- Witness for C7: the at-most-once bounds and the exact subreddit bump at
the sample comment on the empty persona, and the other-subreddit clause at
the key `"other"`. -/
theorem C7_rules_fire_at_most_once_per_item_witness :
    (getList "programming" (analyze_comment c6_comment (emptyPersona sample_basic)).interests).length
      ≤ (getList "programming" (emptyPersona sample_basic).interests).length + 1 ∧
    getCount "learnpython"
        (processComment (emptyPersona sample_basic) c6_comment).frequent_subreddits
      = getCount "learnpython" (emptyPersona sample_basic).frequent_subreddits + 1 ∧
    getCount "other"
        (processComment (emptyPersona sample_basic) c6_comment).frequent_subreddits
      = getCount "other" (emptyPersona sample_basic).frequent_subreddits :=
  ⟨C7_rules_fire_at_most_once_per_item.1 c6_comment (emptyPersona sample_basic) "programming",
   C7_rules_fire_at_most_once_per_item.2.2.2.2.1 (emptyPersona sample_basic) c6_comment,
   C7_rules_fire_at_most_once_per_item.2.2.2.2.2.1 (emptyPersona sample_basic) c6_comment
     "other" (by decide)⟩

/-! ### C4: stable top-5 ranking -/

/-- `leLen` is transitive. -/
theorem leLen_trans : ∀ (a b c : String × List String), leLen a b → leLen b c → leLen a c := by
  intro a b c hab hbc
  simp only [leLen, decide_eq_true_eq] at *
  omega

/-- `leLen` is total. -/
theorem leLen_total : ∀ (a b : String × List String), leLen a b || leLen b a := by
  intro a b
  simp only [leLen, Bool.or_eq_true, decide_eq_true_eq]
  omega

/-- `leCount` is transitive. -/
theorem leCount_trans : ∀ (a b c : String × Nat), leCount a b → leCount b c → leCount a c := by
  intro a b c hab hbc
  simp only [leCount, decide_eq_true_eq] at *
  omega

/-- `leCount` is total. -/
theorem leCount_total : ∀ (a b : String × Nat), leCount a b || leCount b a := by
  intro a b
  simp only [leCount, Bool.or_eq_true, decide_eq_true_eq]
  omega

unseal List.merge List.mergeSort in
/-- C4: the top-5 selections of `analyze_persona` are the first five entries
of the stable descending sorts of the interest map and the subreddit map; the
sort is a permutation, sorted by key descending, and stable (a pair in key
order, in particular a tie, keeps its relative input order); and on the
claim's example — counts `a:3, b:3, c:5` encountered in order `a, b, c` — the
ranked order is `c, a, b`, for interests and for subreddit counts alike. -/
theorem C4_top5_stable_ranking :
    (∀ (nd : Nat) (ui : UserInfo),
      (analyze_persona nd ui).top_interests
        = (sortedByLenDesc (analyze_persona nd ui).interests).take 5 ∧
      (analyze_persona nd ui).top_subreddits
        = (sortedByCountDesc (analyze_persona nd ui).frequent_subreddits).take 5) ∧
    (∀ l : List (String × List String), List.Perm (sortedByLenDesc l) l) ∧
    (∀ l : List (String × List String),
      (sortedByLenDesc l).Pairwise (fun a b => b.2.length ≤ a.2.length)) ∧
    (∀ (l : List (String × List String)) (x y : String × List String),
      y.2.length ≤ x.2.length → [x, y].Sublist l → [x, y].Sublist (sortedByLenDesc l)) ∧
    (∀ l : List (String × Nat), List.Perm (sortedByCountDesc l) l) ∧
    (∀ l : List (String × Nat), (sortedByCountDesc l).Pairwise (fun a b => b.2 ≤ a.2)) ∧
    (∀ (l : List (String × Nat)) (x y : String × Nat),
      y.2 ≤ x.2 → [x, y].Sublist l → [x, y].Sublist (sortedByCountDesc l)) ∧
    sortedByLenDesc
        [("a", ["a1", "a2", "a3"]), ("b", ["b1", "b2", "b3"]),
         ("c", ["c1", "c2", "c3", "c4", "c5"])]
      = [("c", ["c1", "c2", "c3", "c4", "c5"]), ("a", ["a1", "a2", "a3"]),
         ("b", ["b1", "b2", "b3"])] ∧
    sortedByCountDesc [("a", 3), ("b", 3), ("c", 5)] = [("c", 5), ("a", 3), ("b", 3)] := by
  refine ⟨fun nd ui => ⟨rfl, rfl⟩, ?_, ?_, ?_, ?_, ?_, ?_, rfl, rfl⟩
  · intro l
    exact List.mergeSort_perm l leLen
  · intro l
    exact (List.sorted_mergeSort leLen_trans leLen_total l).imp
      (fun h => by simpa [leLen] using h)
  · intro l x y hxy h
    exact List.pair_sublist_mergeSort leLen_trans leLen_total
      (by simpa [leLen] using hxy) h
  · intro l
    exact List.mergeSort_perm l leCount
  · intro l
    exact (List.sorted_mergeSort leCount_trans leCount_total l).imp
      (fun h => by simpa [leCount] using h)
  · intro l x y hxy h
    exact List.pair_sublist_mergeSort leCount_trans leCount_total
      (by simpa [leCount] using hxy) h

unseal List.merge List.mergeSort in
/-- Witness for C4: the tie `a, b` (three citations each) keeps its input
order below `c` (five citations), and the definitional clause at a concrete
run. -/
theorem C4_top5_stable_ranking_witness :
    ((analyze_persona 0 c5_user).top_interests
      = (sortedByLenDesc (analyze_persona 0 c5_user).interests).take 5) ∧
    [("a", ["a1", "a2", "a3"]), ("b", ["b1", "b2", "b3"])].Sublist
      (sortedByLenDesc
        [("a", ["a1", "a2", "a3"]), ("b", ["b1", "b2", "b3"]),
         ("c", ["c1", "c2", "c3", "c4", "c5"])]) ∧
    [("a", 3), ("b", 3)].Sublist (sortedByCountDesc [("a", 3), ("b", 3), ("c", 5)]) :=
  ⟨(C4_top5_stable_ranking.1 0 c5_user).1,
   C4_top5_stable_ranking.2.2.2.1 _ ("a", ["a1", "a2", "a3"]) ("b", ["b1", "b2", "b3"])
     (by decide) (List.sublist_append_left _ _),
   C4_top5_stable_ranking.2.2.2.2.2.2.1 _ ("a", 3) ("b", 3)
     (by decide) (List.sublist_append_left _ _)⟩

/-! ### C8: fetch failure aborts before any report is generated -/

/-- C8: when the fetch returns `none` (any fetch exception — account not
found, network error, rate limit — is caught and turned into `None`), the run
ends in one of the two early-exit messages, never in `wroteFile`:
`generate_persona_file` is not invoked and no report file is opened. -/
theorem C8_fetch_failure_writes_nothing (url : String)
    (fetch : String → Option UserInfo) (nd : Nat)
    (h : fetch (parse_username url) = none) :
    (mainRun url fetch nd = MainOutcome.invalidUrl ∨
      mainRun url fetch nd = MainOutcome.fetchFailed) ∧
    writesFile (mainRun url fetch nd) = false := by
  unfold mainRun
  dsimp only
  split
  · exact ⟨Or.inl rfl, rfl⟩
  · rw [h]
    exact ⟨Or.inr rfl, rfl⟩

/-- Witness for C8: a fetch that always fails, on a well-formed profile URL. -/
theorem C8_fetch_failure_writes_nothing_witness :
    (mainRun "https://www.reddit.com/user/alice/" (fun _ => none) 0 = MainOutcome.invalidUrl ∨
      mainRun "https://www.reddit.com/user/alice/" (fun _ => none) 0 = MainOutcome.fetchFailed) ∧
    writesFile (mainRun "https://www.reddit.com/user/alice/" (fun _ => none) 0) = false :=
  C8_fetch_failure_writes_nothing "https://www.reddit.com/user/alice/" (fun _ => none) 0 rfl

/-! ### C9: empty username is rejected before any fetch -/

/-- C9: when the username obtained by stripping the `/user/` prefix and the
surrounding slashes is empty, `main` reports the invalid URL and returns; the
outcome is `invalidUrl` whatever the fetcher would answer, i.e. no fetch is
consulted. -/
theorem C9_empty_username_no_fetch (url : String) (nd : Nat)
    (h : parse_username url = "") :
    ∀ fetch : String → Option UserInfo, mainRun url fetch nd = MainOutcome.invalidUrl := by
  intro fetch
  unfold mainRun
  rw [h]
  rfl

unseal splitUser in
/-- Witness for C9: the URL `https://www.reddit.com/user///` parses to the
empty username. -/
theorem C9_empty_username_no_fetch_witness :
    mainRun "https://www.reddit.com/user///" (fun _ => none) 0 = MainOutcome.invalidUrl :=
  C9_empty_username_no_fetch "https://www.reddit.com/user///" 0 rfl (fun _ => none)

/-! ### C10: date-only timestamps put all activity in the night bucket -/

/-- A comment-loop iteration always bumps the night bucket: the parsed hour
of a date-only timestamp is 0, which buckets as night. -/
theorem processComment_activity (p : Persona) (c : CommentRec) :
    (processComment p c).activity_patterns = incrAt "night" p.activity_patterns := rfl

/-- A post-loop iteration always bumps the night bucket. -/
theorem processPost_activity (p : Persona) (post : PostRec) :
    (processPost p post).activity_patterns = incrAt "night" p.activity_patterns := rfl

/-- The comment loop bumps the night bucket once per comment. -/
theorem foldl_processComment_activity (cs : List CommentRec) (p : Persona) :
    (cs.foldl processComment p).activity_patterns
      = (incrAt "night")^[cs.length] p.activity_patterns := by
  induction cs generalizing p with
  | nil => rfl
  | cons c rest ih =>
    rw [List.foldl_cons, ih, processComment_activity, List.length_cons,
      Function.iterate_succ_apply]

/-- The post loop bumps the night bucket once per post. -/
theorem foldl_processPost_activity (ps : List PostRec) (p : Persona) :
    (ps.foldl processPost p).activity_patterns
      = (incrAt "night")^[ps.length] p.activity_patterns := by
  induction ps generalizing p with
  | nil => rfl
  | cons post rest ih =>
    rw [List.foldl_cons, ih, processPost_activity, List.length_cons,
      Function.iterate_succ_apply]

/-- Iterating the night bump on the empty map yields either the empty map or
the single entry `("night", n)`. -/
theorem iterate_incrAt_night (n : Nat) :
    (incrAt "night")^[n] ([] : List (String × Nat))
      = if n = 0 then [] else [("night", n)] := by
  induction n with
  | zero => rfl
  | succ m ih =>
    rw [Function.iterate_succ_apply', ih]
    cases m with
    | zero => rfl
    | succ k => simp [incrAt]

/-- The activity map of an analyzed persona is the night bump iterated once
per activity item. -/
theorem analyze_persona_activity (nd : Nat) (ui : UserInfo) :
    (analyze_persona nd ui).activity_patterns
      = (incrAt "night")^[ui.comments.length + ui.posts.length] [] := by
  show ((ui.posts.foldl processPost (ui.comments.foldl processComment _)).activity_patterns = _)
  rw [foldl_processPost_activity, foldl_processComment_activity]
  show ((incrAt "night")^[ui.posts.length] ((incrAt "night")^[ui.comments.length] []) = _)
  rw [← Function.iterate_add_apply, Nat.add_comm ui.posts.length ui.comments.length]

/-- When the activity map is the single entry `("night", n)` with `n ≠ 0`,
the activity section of the report is the single line `("night", 100)`. -/
theorem generate_activity_section (p : Persona) (n : Nat) (hn : n ≠ 0)
    (hap : p.activity_patterns = [("night", n)]) :
    Section.activity [("night", 100)] ∈ (generate_persona_file p).1 := by
  have hq : (n : ℚ) / (n : ℚ) * 100 = 100 := by
    rw [div_self (Nat.cast_ne_zero.mpr hn), one_mul]
  have hact : renderActivity ((p.activity_patterns.map (fun ab => ab.2)).sum)
      p.activity_patterns = Except.ok [("night", 100)] := by
    rw [hap]
    simp [renderActivity, hn, hq]
    rfl
  simp only [generate_persona_file]
  rw [hact]
  rcases hl : renderLanguage p with e | ls <;> simp [hl]

/-- C10: every timestamp reaching `_analyze_activity_time` is a date-only
`%Y-%m-%d` string, so the parsed hour is always 0 and every item buckets as
night: the activity map holds at most the single key `night` — with count
equal to the number of comments plus posts — and whenever any activity
exists the rendered activity section is the single line night, 100%. -/
theorem C10_all_activity_night (nd : Nat) (ui : UserInfo) :
    ((analyze_persona nd ui).activity_patterns
      = if ui.comments.length + ui.posts.length = 0 then []
        else [("night", ui.comments.length + ui.posts.length)]) ∧
    (0 < ui.comments.length + ui.posts.length →
      Section.activity [("night", 100)]
        ∈ (generate_persona_file (analyze_persona nd ui)).1) := by
  have hap := analyze_persona_activity nd ui
  rw [iterate_incrAt_night] at hap
  refine ⟨hap, ?_⟩
  intro hpos
  rw [if_neg (by omega)] at hap
  exact generate_activity_section _ _ (by omega) hap

/-- A user with a single comment, for C10's witness. -/
def c10_user : UserInfo :=
  { username := "eve", created_utc := ⟨2021, 6, 1⟩, comment_karma := 0, link_karma := 0,
    is_mod := false, is_gold := false,
    comments := [{ body := "hello", subreddit := "test", created_utc := ⟨2024, 1, 2⟩,
                   score := 0, permalink := "https://reddit.com/r/test/c2" }],
    posts := [] }

/-- Witness for C10: one comment puts the whole activity in the night bucket
and the rendered activity section reads night, 100%. -/
theorem C10_all_activity_night_witness :
    ((analyze_persona 0 c10_user).activity_patterns
      = if c10_user.comments.length + c10_user.posts.length = 0 then []
        else [("night", c10_user.comments.length + c10_user.posts.length)]) ∧
    Section.activity [("night", 100)]
      ∈ (generate_persona_file (analyze_persona 0 c10_user)).1 :=
  ⟨(C10_all_activity_night 0 c10_user).1,
   (C10_all_activity_night 0 c10_user).2 (by decide)⟩

end RedditPersona
